import Mathlib

/-!
Verification development for the Streamlet dashboard (`src/main.py`).

The program is a single-page demo: sidebar controls select a graph type,
a color palette, three boolean toggles and two numeric parameters; the
script then generates a synthetic dataset (`x`, `y1`, `y2`, `categories`),
renders one of four plot branches into a figure, applies common
post-processing, and shows a summary panel of max/min statistics.

Embedding choices:
- floats are modelled as rationals (`ℚ`);
- `np.sin` / `np.cos` are uninterpreted functions carried in an `Env`;
- the unseeded random source is modelled by streams in the `Env`:
  `gauss1`, `gauss2` are the standard-normal draws consumed by the two
  `np.random.normal` calls (numpy computes `loc + scale * draw`), and
  `catDraw` gives the draws of `np.random.choice(['A','B','C'], ...)`;
- matplotlib calls are reified as a list of plot commands plus a record
  of the figure's attributes (title, grid, legend, formatter, colorbar).
-/

namespace Streamlet

/-- The graph-type dropdown: `["Line Plot", "Scatter Plot", "Bar Chart", "Area Chart"]`. -/
inductive GraphType where
  | linePlot
  | scatterPlot
  | barChart
  | areaChart
deriving Repr, DecidableEq

/-- The string shown for each graph type (the selectbox values in `main.py`). -/
def GraphType.toName : GraphType → String
  | .linePlot => "Line Plot"
  | .scatterPlot => "Scatter Plot"
  | .barChart => "Bar Chart"
  | .areaChart => "Area Chart"

/-- The palette dropdown: `["deep", "muted", "bright", "pastel", "dark", "colorblind"]`. -/
inductive Palette where
  | deep
  | muted
  | bright
  | pastel
  | dark
  | colorblind
deriving Repr, DecidableEq

/-- A category value drawn by `np.random.choice(['A', 'B', 'C'], size=num_points)`. -/
inductive Category where
  | A
  | B
  | C
deriving Repr, DecidableEq

/-- The sidebar parameters read on every recompute (`main.py` lines 20-37). -/
structure Params where
  graph_type : GraphType
  color_palette : Palette
  show_grid : Bool
  show_legend : Bool
  show_annotations : Bool
  num_points : Nat
  noise_level : ℚ
deriving Repr, DecidableEq

/-- The ambient environment: the transcendental functions and the random
streams the script consumes.  `sin`/`cos` are uninterpreted stand-ins for
`np.sin`/`np.cos`; `gauss1 i` (resp. `gauss2 i`) is the `i`-th standard
normal draw of the first (resp. second) `np.random.normal` call; `catDraw i`
is the `i`-th draw of `np.random.choice`. -/
structure Env where
  sin : ℚ → ℚ
  cos : ℚ → ℚ
  gauss1 : Nat → ℚ
  gauss2 : Nat → ℚ
  catDraw : Nat → Category

/-- Element `i` of `np.linspace(a, b, n)` (with endpoint): `a + (b - a) * i / (n - 1)`. -/
def linVal (a b : ℚ) (n i : Nat) : ℚ := a + (b - a) * i / (n - 1 : Nat)

/-- `np.linspace(a, b, n)`: `n` evenly spaced values from `a` to `b` inclusive. -/
def linspace (a b : ℚ) (n : Nat) : List ℚ := (List.range n).map (linVal a b n)

/-- One draw of `np.random.normal(loc, scale)`: numpy scales and shifts a
standard-normal sample, `loc + scale * g`. -/
def normalDraw (loc scale : ℚ) (g : Nat → ℚ) (i : Nat) : ℚ := loc + scale * g i

/-- The four arrays generated at `main.py` lines 40-43. -/
structure Dataset where
  x : List ℚ
  y1 : List ℚ
  y2 : List ℚ
  categories : List Category
deriving Repr, DecidableEq

/-- Dataset generation (`main.py` lines 40-43):
`x = np.linspace(0, 10, num_points)`,
`y1 = np.sin(x) + np.random.normal(0, noise_level, num_points)`,
`y2 = np.cos(x) + np.random.normal(0, noise_level, num_points)`,
`categories = np.random.choice(['A','B','C'], size=num_points)`. -/
def generateData (env : Env) (p : Params) : Dataset where
  x := linspace 0 10 p.num_points
  y1 := (List.range p.num_points).map
    (fun i => env.sin (linVal 0 10 p.num_points i) + normalDraw 0 p.noise_level env.gauss1 i)
  y2 := (List.range p.num_points).map
    (fun i => env.cos (linVal 0 10 p.num_points i) + normalDraw 0 p.noise_level env.gauss2 i)
  categories := (List.range p.num_points).map env.catDraw

/-- Binary maximum on rationals (numpy's pairwise `maximum` reduction). -/
def qmax (a b : ℚ) : ℚ := if a ≤ b then b else a

/-- Binary minimum on rationals (numpy's pairwise `minimum` reduction). -/
def qmin (a b : ℚ) : ℚ := if b ≤ a then b else a

/-- `np.max` of a 1-d array (maximum element; the arrays here are nonempty). -/
def npMax : List ℚ → ℚ
  | [] => 0
  | a :: t => t.foldl qmax a

/-- `np.min` of a 1-d array (minimum element; the arrays here are nonempty). -/
def npMin : List ℚ → ℚ
  | [] => 0
  | a :: t => t.foldl qmin a

/-- `np.argmax`: index of the first occurrence of the maximum. -/
def npArgmax (l : List ℚ) : Nat := l.indexOf (npMax l)

/-- Python slice `l[::k]`: elements at indices `0, k, 2k, ...`; its length is
`⌈len(l) / k⌉`. -/
def strideSlice (l : List ℚ) (k : Nat) : List ℚ :=
  (List.range ((l.length + k - 1) / k)).map (fun j => l.getD (j * k) 0)

/-- A reified matplotlib drawing call issued by one of the four branches. -/
inductive PlotCmd where
  | plotLine (xs ys : List ℚ) (label : String) (linewidth : ℚ)
      (linestyle : String) (marker : Option (String × Nat × ℚ))
  | scatterPts (xs ys colors : List ℚ) (cmap : String) (size alpha : ℚ) (label : String)
  | annotate (text : String) (xy xytext : ℚ × ℚ)
  | bar (xs heights : List ℚ) (width alpha : ℚ) (label : String)
  | fillBetween (xs ys : List ℚ) (alpha : ℚ) (label : String)
deriving Repr, DecidableEq

/-- The drawing calls of the branch selected by `graph_type`
(`main.py` lines 56-70). -/
def renderBranch (p : Params) (d : Dataset) : List PlotCmd :=
  match p.graph_type with
  | .linePlot =>
      [.plotLine d.x d.y1 "Sine Wave" (5/2) "-" (some ("o", 5, 6)),
       .plotLine d.x d.y2 "Cosine Wave" (5/2) "--" none]
  | .scatterPlot =>
      [.scatterPts d.x d.y1 d.y2 "viridis" 100 (7/10) "Data Points"] ++
      (if p.show_annotations then
        [.annotate "Peak Value"
          (d.x.getD (npArgmax d.y1) 0, npMax d.y1)
          (d.x.getD (npArgmax d.y1) 0 + 1, npMax d.y1 + 1/2)]
      else [])
  | .barChart =>
      [.bar (strideSlice d.x 10) (strideSlice d.y1 10) (1/2) (7/10) "Sine Values",
       .bar ((strideSlice d.x 10).map (· + 1/2)) (strideSlice d.y2 10) (1/2) (7/10) "Cosine Values"]
  | .areaChart =>
      [.fillBetween d.x d.y1 (4/10) "Sine Wave",
       .fillBetween d.x d.y2 (4/10) "Cosine Wave"]

/-- The rendered figure: branch commands plus the common post-processing
attributes (`main.py` lines 72-86). -/
structure Figure where
  commands : List PlotCmd
  title : String
  xlabel : String
  ylabel : String
  grid : Bool
  gridLinestyle : String
  gridAlpha : ℚ
  yTickFormat : String
  legend : Option String
  colorbarLabel : Option String
deriving Repr, DecidableEq

/-- Build the figure: run the selected branch, then apply the common
customization — title `f'Beautiful {graph_type}'`, axis labels,
`ax.grid(show_grid, linestyle='--', alpha=0.6)`, the y-axis
`StrMethodFormatter('{x:,.1f}')`, `ax.legend(loc='upper right')` when
`show_legend`, and the colorbar labelled `'Cosine Values'` for the
scatter branch (`main.py` lines 72-86). -/
def renderFigure (p : Params) (d : Dataset) : Figure where
  commands := renderBranch p d
  title := "Beautiful " ++ p.graph_type.toName
  xlabel := "X Axis"
  ylabel := "Y Axis"
  grid := p.show_grid
  gridLinestyle := "--"
  gridAlpha := 6/10
  yTickFormat := "\x7bx:,.1f\x7d"
  legend := if p.show_legend then some "upper right" else none
  colorbarLabel := if p.graph_type = .scatterPlot then some "Cosine Values" else none

/-- Floor of a rational as an integer (numerator floor-divided by
denominator). -/
def ratFloor (q : ℚ) : ℤ := q.num.fdiv q.den

/-- Round a rational to the nearest integer, ties to even (the rounding of
Python's fixed-point `format`). -/
def roundHalfEven (q : ℚ) : ℤ :=
  let f := ratFloor q
  let frac := q - f
  if frac < 1/2 then f
  else if 1/2 < frac then f + 1
  else if f % 2 = 0 then f else f + 1

/-- Python's `f"{v:.2f}"`: the value rounded to two decimal places, printed
with exactly two digits after the point. -/
def format2 (q : ℚ) : String :=
  let c : ℤ := roundHalfEven (q * 100)
  let sign := if c < 0 then "-" else ""
  let n := c.natAbs
  let r := n % 100
  sign ++ toString (n / 100) ++ "." ++ (if r < 10 then "0" else "") ++ toString r

/-- The expander's summary panel (`main.py` lines 92-106): four formatted
metrics and the first five rows of `(x, y1, y2)`. -/
structure Summary where
  maxSine : String
  minSine : String
  maxCosine : String
  minCosine : String
  previewX : List ℚ
  previewY1 : List ℚ
  previewY2 : List ℚ
deriving Repr, DecidableEq

/-- Compute the summary panel:
`st.metric("Max Sine Value", f"{np.max(y1):.2f}")` and friends, plus the
`st.dataframe` preview of `x[:5]`, `y1[:5]`, `y2[:5]`. -/
def dataSummary (d : Dataset) : Summary where
  maxSine := format2 (npMax d.y1)
  minSine := format2 (npMin d.y1)
  maxCosine := format2 (npMax d.y2)
  minCosine := format2 (npMin d.y2)
  previewX := d.x.take 5
  previewY1 := d.y1.take 5
  previewY2 := d.y2.take 5

/-- One full recompute of the script: generate the dataset, render the
figure, compute the summary. -/
def appRender (env : Env) (p : Params) : Figure × Summary :=
  let d := generateData env p
  (renderFigure p d, dataSummary d)

/-- A concrete environment used by witnesses. -/
def testEnv : Env where
  sin := fun q => q
  cos := fun q => 1 - q
  gauss1 := fun i => (i : ℚ) / 7
  gauss2 := fun i => 1 - (i : ℚ) / 3
  catDraw := fun i => if i % 3 = 0 then .A else if i % 3 = 1 then .B else .C

/-- A second environment that differs from `testEnv` only in the category
draws. -/
def testEnvCats : Env :=
  { testEnv with catDraw := fun _ => .C }

/-- The sidebar defaults (`main.py`): Line Plot, deep, all toggles on,
100 points, noise 0.1. -/
def defaultParams : Params where
  graph_type := .linePlot
  color_palette := .deep
  show_grid := true
  show_legend := true
  show_annotations := true
  num_points := 100
  noise_level := 1/10

/-! ### Helper lemmas -/

/-- `getD` on a mapped range evaluates the function at an in-range index. -/
theorem map_range_getD (f : Nat → ℚ) (n i : Nat) (h : i < n) :
    ((List.range n).map f).getD i 0 = f i := by
  rw [List.getD_eq_getElem?_getD, List.getElem?_map]
  simp [List.getElem?_range, h]

/-- `qmax` returns one of its arguments. -/
theorem qmax_choice (a b : ℚ) : qmax a b = a ∨ qmax a b = b := by
  rw [qmax]; split
  · exact Or.inr rfl
  · exact Or.inl rfl

/-- Folding `qmax` over a list yields a member of the seed-extended list. -/
theorem foldl_max_mem (t : List ℚ) (a : ℚ) : t.foldl qmax a ∈ a :: t := by
  induction t generalizing a with
  | nil => simp
  | cons b t ih =>
    have h := ih (qmax a b)
    simp only [List.foldl_cons]
    rcases List.mem_cons.mp h with h1 | h1
    · rcases qmax_choice a b with h2 | h2 <;> rw [h1, h2] <;> simp
    · simp [h1]

/-- `np.max` of a nonempty array is one of its elements. -/
theorem npMax_mem (l : List ℚ) (h : l ≠ []) : npMax l ∈ l := by
  cases l with
  | nil => exact absurd rfl h
  | cons a t => exact foldl_max_mem t a

/-- The element at index `np.argmax(l)` is `np.max(l)`: the annotation target
really is a maximising point. -/
theorem getD_npArgmax (l : List ℚ) (h : l ≠ []) : l.getD (npArgmax l) 0 = npMax l := by
  have hm : npMax l ∈ l := npMax_mem l h
  have hlt : l.indexOf (npMax l) < l.length := List.indexOf_lt_length.mpr hm
  rw [npArgmax, List.getD_eq_getElem l 0 hlt, List.getElem_indexOf hlt]

/-- Rounding an integer value returns it unchanged. -/
theorem roundHalfEven_intCast (z : ℤ) : roundHalfEven (z : ℚ) = z := by
  unfold roundHalfEven ratFloor
  simp only [Rat.num_intCast, Rat.den_intCast, Nat.cast_one, Int.fdiv_one, sub_self]
  norm_num

/-- Evaluation of the maximum of the C6 example array. -/
theorem npMax_example : npMax [0, 84/100, 91/100, 14/100, -76/100] = (91/100 : ℚ) := by
  norm_num [npMax, qmax]

/-- Evaluation of the minimum of the C6 example array. -/
theorem npMin_example : npMin [0, 84/100, 91/100, 14/100, -76/100] = (-76/100 : ℚ) := by
  norm_num [npMin, qmin]

/-- Formatting the example maximum gives the displayed string. -/
theorem format2_example_max : format2 (npMax [0, 84/100, 91/100, 14/100, -76/100]) = "0.91" := by
  have h : (91/100 : ℚ) * 100 = ((91 : ℤ) : ℚ) := by norm_num
  have h91 : roundHalfEven ((91/100 : ℚ) * 100) = 91 := by
    rw [h, roundHalfEven_intCast]
  rw [npMax_example]
  simp only [format2, h91]
  rfl

/-- Formatting the example minimum gives the displayed string. -/
theorem format2_example_min : format2 (npMin [0, 84/100, 91/100, 14/100, -76/100]) = "-0.76" := by
  have h : (-76/100 : ℚ) * 100 = ((-76 : ℤ) : ℚ) := by norm_num
  have h76 : roundHalfEven ((-76/100 : ℚ) * 100) = -76 := by
    rw [h, roundHalfEven_intCast]
  rw [npMin_example]
  simp only [format2, h76]
  rfl

/-! ### Claims -/

/-- C1: For every fixed setting of palette, show_grid, show_legend,
show_annotations, num_points and noise_level, recomputing with a different
graph_type value produces the same x, y1 and y2 arrays as recomputing with
the original graph_type value; only the rendering branch taken differs. -/
theorem graphType_does_not_touch_data (env : Env) (p : Params) (g g' : GraphType) :
    (generateData env { p with graph_type := g }).x
      = (generateData env { p with graph_type := g' }).x ∧
    (generateData env { p with graph_type := g }).y1
      = (generateData env { p with graph_type := g' }).y1 ∧
    (generateData env { p with graph_type := g }).y2
      = (generateData env { p with graph_type := g' }).y2 :=
  ⟨rfl, rfl, rfl⟩

/-- C2: For every num_points in [10,500], if noise_level == 0 then
y1 == sin(x) elementwise and y2 == cos(x) elementwise, with no dependence
on the random source (any two environments with the same sin/cos give the
same y1 and y2). -/
theorem noiseless_is_exact (env env' : Env) (p : Params)
    (hs : env.sin = env'.sin) (hc : env.cos = env'.cos)
    (h10 : 10 ≤ p.num_points) (h500 : p.num_points ≤ 500)
    (hz : p.noise_level = 0) :
    (generateData env p).y1 = (generateData env p).x.map env.sin ∧
    (generateData env p).y2 = (generateData env p).x.map env.cos ∧
    (generateData env p).y1 = (generateData env' p).y1 ∧
    (generateData env p).y2 = (generateData env' p).y2 := by
  refine ⟨?_, ?_, ?_, ?_⟩ <;>
    simp [generateData, linspace, normalDraw, hz, hs, hc, List.map_map, Function.comp]

/-- C2 witness: at 10 points with zero noise, for two concrete environments
sharing sin/cos. -/
theorem noiseless_is_exact_witness :
    (generateData testEnv { defaultParams with num_points := 10, noise_level := 0 }).y1
      = (generateData testEnv { defaultParams with num_points := 10, noise_level := 0 }).x.map testEnv.sin ∧
    (generateData testEnv { defaultParams with num_points := 10, noise_level := 0 }).y2
      = (generateData testEnv { defaultParams with num_points := 10, noise_level := 0 }).x.map testEnv.cos ∧
    (generateData testEnv { defaultParams with num_points := 10, noise_level := 0 }).y1
      = (generateData testEnvCats { defaultParams with num_points := 10, noise_level := 0 }).y1 ∧
    (generateData testEnv { defaultParams with num_points := 10, noise_level := 0 }).y2
      = (generateData testEnvCats { defaultParams with num_points := 10, noise_level := 0 }).y2 :=
  noiseless_is_exact testEnv testEnvCats _ rfl rfl (by decide) (by decide) rfl

/-- C3: For every num_points in [10,500] and every noise_level, the four
arrays x, y1, y2 and categories all have length exactly num_points, on
every recompute. -/
theorem dataset_lengths (env : Env) (p : Params)
    (h10 : 10 ≤ p.num_points) (h500 : p.num_points ≤ 500) :
    (generateData env p).x.length = p.num_points ∧
    (generateData env p).y1.length = p.num_points ∧
    (generateData env p).y2.length = p.num_points ∧
    (generateData env p).categories.length = p.num_points := by
  refine ⟨?_, ?_, ?_, ?_⟩ <;> simp [generateData, linspace]

/-- C3 witness: at the default 100 points. -/
theorem dataset_lengths_witness :
    (generateData testEnv defaultParams).x.length = defaultParams.num_points ∧
    (generateData testEnv defaultParams).y1.length = defaultParams.num_points ∧
    (generateData testEnv defaultParams).y2.length = defaultParams.num_points ∧
    (generateData testEnv defaultParams).categories.length = defaultParams.num_points :=
  dataset_lengths testEnv defaultParams (by decide) (by decide)

/-- C8: For every graph_type and every toggle setting, the figure's title is
`"Beautiful {graph_type}"`, grid lines (dashed, 60% opacity) are present iff
show_grid, y tick labels use the thousands-separator 1-decimal format, and
an upper-right legend is shown iff show_legend. -/
theorem common_postprocessing (env : Env) (p : Params) :
    (renderFigure p (generateData env p)).title = "Beautiful " ++ p.graph_type.toName ∧
    ((renderFigure p (generateData env p)).grid = true ↔ p.show_grid = true) ∧
    (renderFigure p (generateData env p)).gridLinestyle = "--" ∧
    (renderFigure p (generateData env p)).gridAlpha = 6/10 ∧
    (renderFigure p (generateData env p)).yTickFormat = "\x7bx:,.1f\x7d" ∧
    ((renderFigure p (generateData env p)).legend = some "upper right" ↔ p.show_legend = true) := by
  refine ⟨rfl, ?_, rfl, rfl, rfl, ?_⟩
  · cases h : p.show_grid <;> simp [renderFigure, h]
  · cases h : p.show_legend <;> simp [renderFigure, h]

/-- C4: For every num_points in [10,500], x is strictly increasing, its first
element equals 0 and its last element equals 10 (exact in the rational
model). -/
theorem x_monotone_endpoints (env : Env) (p : Params)
    (h10 : 10 ≤ p.num_points) (h500 : p.num_points ≤ 500) :
    (generateData env p).x.Sorted (· < ·) ∧
    (generateData env p).x.getD 0 0 = 0 ∧
    (generateData env p).x.getD (p.num_points - 1) 0 = 10 := by
  have hn : 0 < p.num_points := by omega
  have hden : (0 : ℚ) < ((p.num_points - 1 : Nat) : ℚ) := by
    have h1 : 1 ≤ p.num_points - 1 := by omega
    exact_mod_cast Nat.lt_of_lt_of_le Nat.zero_lt_one h1
  refine ⟨?_, ?_, ?_⟩
  · show (linspace 0 10 p.num_points).Sorted (· < ·)
    rw [linspace, List.Sorted, List.pairwise_map]
    refine (List.pairwise_lt_range p.num_points).imp ?_
    intro i j hij
    have hij' : (i : ℚ) < j := by exact_mod_cast hij
    rw [linVal, linVal]
    have : (10 - 0 : ℚ) * i / (p.num_points - 1 : Nat)
        < (10 - 0 : ℚ) * j / (p.num_points - 1 : Nat) := by
      refine (div_lt_div_iff_of_pos_right hden).mpr ?_
      nlinarith
    linarith
  · show (linspace 0 10 p.num_points).getD 0 0 = 0
    rw [linspace, map_range_getD _ _ _ hn, linVal]
    norm_num
  · show (linspace 0 10 p.num_points).getD (p.num_points - 1) 0 = 10
    rw [linspace, map_range_getD _ _ _ (by omega), linVal]
    rw [mul_div_assoc, div_self hden.ne', mul_one]
    norm_num

/-- C4 witness: at 10 points. -/
theorem x_monotone_endpoints_witness :
    (generateData testEnv { defaultParams with num_points := 10 }).x.Sorted (· < ·) ∧
    (generateData testEnv { defaultParams with num_points := 10 }).x.getD 0 0 = 0 ∧
    (generateData testEnv { defaultParams with num_points := 10 }).x.getD
      (({ defaultParams with num_points := 10 } : Params).num_points - 1) 0 = 10 :=
  x_monotone_endpoints testEnv _ (by decide) (by decide)

/-- C6: The four displayed summary metrics equal max(y1), min(y1), max(y2),
min(y2) of the generated arrays, each formatted to 2 decimal places; on the
example array [0.0, 0.84, 0.91, 0.14, -0.76] the formatted max is "0.91"
and the formatted min is "-0.76". -/
theorem summary_metrics_formula (env : Env) (p : Params) :
    (appRender env p).2.maxSine = format2 (npMax (generateData env p).y1) ∧
    (appRender env p).2.minSine = format2 (npMin (generateData env p).y1) ∧
    (appRender env p).2.maxCosine = format2 (npMax (generateData env p).y2) ∧
    (appRender env p).2.minCosine = format2 (npMin (generateData env p).y2) ∧
    format2 (npMax [0, 84/100, 91/100, 14/100, -76/100]) = "0.91" ∧
    format2 (npMin [0, 84/100, 91/100, 14/100, -76/100]) = "-0.76" :=
  ⟨rfl, rfl, rfl, rfl, format2_example_max, format2_example_min⟩

/-- The rendering branch never reads the categories array. -/
theorem renderBranch_ignores_categories (p : Params) (x y1 y2 : List ℚ)
    (c c' : List Category) :
    renderBranch p ⟨x, y1, y2, c⟩ = renderBranch p ⟨x, y1, y2, c'⟩ := by
  cases p with
  | mk g pal sg sl sa n nl => cases g <;> rfl

/-- The figure depends only on the x, y1, y2 fields of the dataset. -/
theorem renderFigure_ext (p : Params) (d d' : Dataset)
    (hx : d.x = d'.x) (h1 : d.y1 = d'.y1) (h2 : d.y2 = d'.y2) :
    renderFigure p d = renderFigure p d' := by
  obtain ⟨x, y1, y2, c⟩ := d
  obtain ⟨x', y1', y2', c'⟩ := d'
  obtain rfl : x = x' := hx
  obtain rfl : y1 = y1' := h1
  obtain rfl : y2 = y2' := h2
  unfold renderFigure
  rw [renderBranch_ignores_categories p x y1 y2 c c']

/-- The summary panel depends only on the x, y1, y2 fields of the dataset. -/
theorem dataSummary_ext (d d' : Dataset)
    (hx : d.x = d'.x) (h1 : d.y1 = d'.y1) (h2 : d.y2 = d'.y2) :
    dataSummary d = dataSummary d' := by
  obtain ⟨x, y1, y2, c⟩ := d
  obtain ⟨x', y1', y2', c'⟩ := d'
  obtain rfl : x = x' := hx
  obtain rfl : y1 = y1' := h1
  obtain rfl : y2 = y2' := h2
  rfl

/-- C9: The values in the categories array never influence any output: two
runs identical except for the category draws produce the same figure and
the same summary panel. -/
theorem categories_never_influence_output (env env' : Env) (p : Params)
    (hs : env.sin = env'.sin) (hc : env.cos = env'.cos)
    (hg1 : env.gauss1 = env'.gauss1) (hg2 : env.gauss2 = env'.gauss2) :
    appRender env p = appRender env' p := by
  have h1 : (generateData env p).y1 = (generateData env' p).y1 := by
    simp [generateData, normalDraw, hs, hg1]
  have h2 : (generateData env p).y2 = (generateData env' p).y2 := by
    simp [generateData, normalDraw, hc, hg2]
  exact Prod.ext (renderFigure_ext p _ _ rfl h1 h2) (dataSummary_ext _ _ rfl h1 h2)

/-- C9 witness: two concrete environments differing only in the category
draws give identical output at the default parameters. -/
theorem categories_never_influence_output_witness :
    appRender testEnv defaultParams = appRender testEnvCats defaultParams :=
  categories_never_influence_output testEnv testEnvCats defaultParams rfl rfl rfl rfl

/-- The stride slice `l[::k]` has `⌈len(l)/k⌉` elements. -/
theorem strideSlice_length (l : List ℚ) (k : Nat) :
    (strideSlice l k).length = (l.length + k - 1) / k := by
  simp [strideSlice]

/-- Element `j` of the stride slice `l[::k]` is `l[j*k]`. -/
theorem strideSlice_getD (l : List ℚ) (k j : Nat) (h : j < (l.length + k - 1) / k) :
    (strideSlice l k).getD j 0 = l.getD (j * k) 0 := by
  rw [strideSlice, map_range_getD _ _ _ h]

/-- C5: When graph_type is BarChart and num_points == 100, exactly 10 bars
are drawn per series (one for every 10th sample starting at index 0), each
bar has width 0.5, and the second series' bar x-positions equal the first
series' positions shifted by +0.5. -/
theorem barChart_hundred (env : Env) (p : Params)
    (hg : p.graph_type = GraphType.barChart) (hn : p.num_points = 100) :
    ∃ xs h1 h2 : List ℚ,
      renderBranch p (generateData env p) =
        [PlotCmd.bar xs h1 (1/2) (7/10) "Sine Values",
         PlotCmd.bar (xs.map (· + 1/2)) h2 (1/2) (7/10) "Cosine Values"] ∧
      xs.length = 10 ∧ h1.length = 10 ∧ h2.length = 10 ∧
      ∀ j, j < 10 →
        xs.getD j 0 = (generateData env p).x.getD (10 * j) 0 ∧
        h1.getD j 0 = (generateData env p).y1.getD (10 * j) 0 ∧
        h2.getD j 0 = (generateData env p).y2.getD (10 * j) 0 := by
  have hx : (generateData env p).x.length = 100 := by simp [generateData, linspace, hn]
  have hy1 : (generateData env p).y1.length = 100 := by simp [generateData, hn]
  have hy2 : (generateData env p).y2.length = 100 := by simp [generateData, hn]
  refine ⟨strideSlice (generateData env p).x 10, strideSlice (generateData env p).y1 10,
    strideSlice (generateData env p).y2 10, ?_, ?_, ?_, ?_, ?_⟩
  · simp only [renderBranch, hg]
  · rw [strideSlice_length, hx]
  · rw [strideSlice_length, hy1]
  · rw [strideSlice_length, hy2]
  · intro j hj
    refine ⟨?_, ?_, ?_⟩
    · rw [strideSlice_getD _ _ _ (by rw [hx]; omega), Nat.mul_comm]
    · rw [strideSlice_getD _ _ _ (by rw [hy1]; omega), Nat.mul_comm]
    · rw [strideSlice_getD _ _ _ (by rw [hy2]; omega), Nat.mul_comm]

/-- C5 witness: at the concrete bar-chart parameters with 100 points. -/
theorem barChart_hundred_witness :
    ∃ xs h1 h2 : List ℚ,
      renderBranch { defaultParams with graph_type := GraphType.barChart }
          (generateData testEnv { defaultParams with graph_type := GraphType.barChart }) =
        [PlotCmd.bar xs h1 (1/2) (7/10) "Sine Values",
         PlotCmd.bar (xs.map (· + 1/2)) h2 (1/2) (7/10) "Cosine Values"] ∧
      xs.length = 10 ∧ h1.length = 10 ∧ h2.length = 10 ∧
      ∀ j, j < 10 →
        xs.getD j 0 = (generateData testEnv
          { defaultParams with graph_type := GraphType.barChart }).x.getD (10 * j) 0 ∧
        h1.getD j 0 = (generateData testEnv
          { defaultParams with graph_type := GraphType.barChart }).y1.getD (10 * j) 0 ∧
        h2.getD j 0 = (generateData testEnv
          { defaultParams with graph_type := GraphType.barChart }).y2.getD (10 * j) 0 :=
  barChart_hundred testEnv { defaultParams with graph_type := GraphType.barChart } rfl rfl

/-- C7: When graph_type is ScatterPlot, the plot shows y1 against x colored
by y2 on a continuous color scale with a color legend keyed to y2; if
show_annotations is true, exactly one annotation points at the (x, y1) pair
where y1 is maximal, its text placed 1 unit right and 0.5 above that point;
no annotation is added when show_annotations is false. -/
theorem scatter_branch_annotation (env : Env) (p : Params)
    (hg : p.graph_type = GraphType.scatterPlot) (h10 : 10 ≤ p.num_points) :
    renderBranch p (generateData env p) =
      [PlotCmd.scatterPts (generateData env p).x (generateData env p).y1
        (generateData env p).y2 "viridis" 100 (7/10) "Data Points"] ++
      (if p.show_annotations then
        [PlotCmd.annotate "Peak Value"
          ((generateData env p).x.getD (npArgmax (generateData env p).y1) 0,
           npMax (generateData env p).y1)
          ((generateData env p).x.getD (npArgmax (generateData env p).y1) 0 + 1,
           npMax (generateData env p).y1 + 1/2)]
      else []) ∧
    (generateData env p).y1.getD (npArgmax (generateData env p).y1) 0
      = npMax (generateData env p).y1 ∧
    (renderFigure p (generateData env p)).colorbarLabel = some "Cosine Values" := by
  refine ⟨?_, ?_, ?_⟩
  · simp only [renderBranch, hg]
  · refine getD_npArgmax _ ?_
    have hl : (generateData env p).y1.length = p.num_points := by simp [generateData]
    refine List.length_pos.mp ?_
    rw [hl]; omega
  · simp [renderFigure, hg]

/-- C7 witness: at the concrete scatter-plot parameters. -/
theorem scatter_branch_annotation_witness :
    renderBranch { defaultParams with graph_type := GraphType.scatterPlot }
      (generateData testEnv { defaultParams with graph_type := GraphType.scatterPlot }) =
      [PlotCmd.scatterPts
        (generateData testEnv { defaultParams with graph_type := GraphType.scatterPlot }).x
        (generateData testEnv { defaultParams with graph_type := GraphType.scatterPlot }).y1
        (generateData testEnv { defaultParams with graph_type := GraphType.scatterPlot }).y2
        "viridis" 100 (7/10) "Data Points"] ++
      (if ({ defaultParams with graph_type := GraphType.scatterPlot } : Params).show_annotations then
        [PlotCmd.annotate "Peak Value"
          ((generateData testEnv { defaultParams with graph_type := GraphType.scatterPlot }).x.getD
            (npArgmax (generateData testEnv
              { defaultParams with graph_type := GraphType.scatterPlot }).y1) 0,
           npMax (generateData testEnv
             { defaultParams with graph_type := GraphType.scatterPlot }).y1)
          ((generateData testEnv { defaultParams with graph_type := GraphType.scatterPlot }).x.getD
            (npArgmax (generateData testEnv
              { defaultParams with graph_type := GraphType.scatterPlot }).y1) 0 + 1,
           npMax (generateData testEnv
             { defaultParams with graph_type := GraphType.scatterPlot }).y1 + 1/2)]
      else []) ∧
    (generateData testEnv { defaultParams with graph_type := GraphType.scatterPlot }).y1.getD
      (npArgmax (generateData testEnv
        { defaultParams with graph_type := GraphType.scatterPlot }).y1) 0
      = npMax (generateData testEnv
          { defaultParams with graph_type := GraphType.scatterPlot }).y1 ∧
    (renderFigure { defaultParams with graph_type := GraphType.scatterPlot }
      (generateData testEnv
        { defaultParams with graph_type := GraphType.scatterPlot })).colorbarLabel
      = some "Cosine Values" :=
  scatter_branch_annotation testEnv
    { defaultParams with graph_type := GraphType.scatterPlot } rfl (by decide)

/-- C10: For every num_points in [10,500] with graph_type BarChart, the
number of bars drawn per series equals ceil(num_points / 10) (the length of
the stride-10 slice starting at index 0), not num_points / 10. -/
theorem barChart_bar_count (env : Env) (p : Params)
    (hg : p.graph_type = GraphType.barChart)
    (h10 : 10 ≤ p.num_points) (h500 : p.num_points ≤ 500) :
    ∃ xs h1 h2 : List ℚ,
      renderBranch p (generateData env p) =
        [PlotCmd.bar xs h1 (1/2) (7/10) "Sine Values",
         PlotCmd.bar (xs.map (· + 1/2)) h2 (1/2) (7/10) "Cosine Values"] ∧
      xs.length = (p.num_points + 9) / 10 ∧
      h1.length = (p.num_points + 9) / 10 ∧
      h2.length = (p.num_points + 9) / 10 := by
  have hx : (generateData env p).x.length = p.num_points := by simp [generateData, linspace]
  have hy1 : (generateData env p).y1.length = p.num_points := by simp [generateData]
  have hy2 : (generateData env p).y2.length = p.num_points := by simp [generateData]
  refine ⟨strideSlice (generateData env p).x 10, strideSlice (generateData env p).y1 10,
    strideSlice (generateData env p).y2 10, ?_, ?_, ?_, ?_⟩
  · simp only [renderBranch, hg]
  · rw [strideSlice_length, hx]; omega
  · rw [strideSlice_length, hy1]; omega
  · rw [strideSlice_length, hy2]; omega

/-- C10 witness: at 95 points the bar count per series is 10, although
95 / 10 rounds down to 9. -/
theorem barChart_bar_count_witness :
    (∃ xs h1 h2 : List ℚ,
      renderBranch { defaultParams with graph_type := GraphType.barChart, num_points := 95 }
          (generateData testEnv
            { defaultParams with graph_type := GraphType.barChart, num_points := 95 }) =
        [PlotCmd.bar xs h1 (1/2) (7/10) "Sine Values",
         PlotCmd.bar (xs.map (· + 1/2)) h2 (1/2) (7/10) "Cosine Values"] ∧
      xs.length = 10 ∧ h1.length = 10 ∧ h2.length = 10) ∧ 95 / 10 ≠ 10 :=
  ⟨barChart_bar_count testEnv
    { defaultParams with graph_type := GraphType.barChart, num_points := 95 }
    rfl (by decide) (by decide), by decide⟩

end Streamlet
